import Mathlib

/-
Verification of the pyRevit loader updater module
(src/loader/Lib/pyRevit/loader/updater.py).

Shallow embedding conventions:
  * A call into the git backend (LibGit2Sharp via pythonnet) that may raise a
    Python exception is modelled as an `Except String _` value; `Except.error`
    is a raised exception, and a function that lets an exception escape has
    return type `Except String _` itself.
  * `logger.debug`/`logger.error` calls are modelled as an explicit list of
    structured `LogEntry` values returned alongside the result, in emission
    order.  Each error constructor corresponds to exactly one `logger.error`
    format string from the source and carries the formatted-in payloads.
  * Module-level ambient state (`HOME_DIR`, `user_settings`, the `git` module
    and the `parser.get_installed_package_data` collaborator) is threaded
    through a `GitEnv` record of oracles.
  * A live repository object is a `Repo` record: its snapshot data plus
    oracles for the backend operations the updater invokes.  Mutation by a
    successful pull is modelled by returning the post-pull `Repo` state.
-/

/-- Result of `repo.ObjectDatabase.CalculateHistoryDivergence(...)`:
`BehindBy` and `AheadBy` commit counts. -/
structure HistDiv where
  BehindBy : Nat
  AheadBy : Nat
deriving DecidableEq

/-- A commit as the updater reads it: `.Id.Sha` and `.Message`. -/
structure Commit where
  sha : String
  message : String
deriving DecidableEq

/-- The tracked upstream branch of a local branch (`branch.TrackedBranch`);
the updater only reads its `CanonicalName` (its `Tip` is consumed inside the
fallible divergence computation, see `Repo.calcDivergence`). -/
structure TrackedBranchInfo where
  canonicalName : String
deriving DecidableEq

/-- One entry of `repo.Branches`.  `trackedBranch = none` models a branch
whose `TrackedBranch` property is falsy (no configured upstream). -/
structure Branch where
  canonicalName : String
  isRemote : Bool
  trackedBranch : Option TrackedBranchInfo
deriving DecidableEq

/-- One entry of `repo.Network.Remotes`. -/
structure Remote where
  name : String
deriving DecidableEq

/-- A live repository object (`git.Repository` instance).

Snapshot fields mirror the attribute reads the updater performs; oracle
fields give the outcome of each fallible backend call:
  * `tip` — reading `repo.Head.Tip` (then `.Id.Sha` / `.Message`); `error`
    models the attribute access raising (e.g. unborn HEAD, `Tip` is null).
  * `fetchResult r` — `repo.Network.Fetch(r, fetch_options)`.
  * `calcDivergence b` — `repo.ObjectDatabase.CalculateHistoryDivergence
    (b.Tip, b.TrackedBranch.Tip)` for local branch `b`, evaluated after the
    fetch pass; `error` models any exception from the tip accesses or the
    computation itself.
  * `pullResult` — `repo.Network.Pull(signature, pull_options)`; on success
    it yields the new head commit the pull left HEAD on. -/
structure Repo where
  workingDirectory : String
  headName : String
  tip : Except String Commit
  branches : List Branch
  remotes : List Remote
  fetchResult : Remote → Except String Unit
  calcDivergence : Branch → Except String HistDiv
  pullResult : Except String Commit

/-- `PyRevitRepoInfo = namedtuple('PyRevitRepoInfo',
['directory', 'head_name', 'last_commit_hash', 'repo'])` (source line 18). -/
structure PyRevitRepoInfo where
  directory : String
  head_name : String
  last_commit_hash : String
  repo : Repo

/-- A package descriptor returned by the package locator
(`get_installed_package_data`); the updater reads only `.directory`. -/
structure PkgInfo where
  directory : String
deriving DecidableEq

/-- One emitted log line.  `debug` carries the formatted message; each error
constructor corresponds to one `logger.error` call site of the source:
  * `errCannotCreateRepo dir` —
    `'Can not create repo from home directory: \x7b\x7d'.format(dir)`
    (lines 52 and 75);
  * `errFailedFetching dir err` —
    `'Failed fetching: \x7b\x7d | \x7b\x7d'` (line 116);
  * `errFailedUpdating dir err` —
    `'Failed updating: \x7b\x7d | \x7b\x7d'` (line 100);
  * `errCannotCompare branchName repoDir err` —
    `'Can not compare branch \x7b\x7d in repo: \x7b\x7d | \x7b\x7d'`
    (lines 128-130). -/
inductive LogEntry where
  | debug (msg : String)
  | errCannotCreateRepo (dir : String)
  | errFailedFetching (dir : String) (err : String)
  | errFailedUpdating (dir : String) (err : String)
  | errCannotCompare (branchName : String) (repoDir : String) (err : String)
deriving DecidableEq

/-- Error-level log lines (everything the source emits via `logger.error`). -/
def LogEntry.isError : LogEntry → Bool
  | LogEntry.debug _ => false
  | _ => true

/-- `str(s).replace('\n', '')` as used on head messages and error strings. -/
def stripNL (s : String) : String := s.replace "\n" ""

/-- The ambient environment of the updater module: the `HOME_DIR` constant,
`user_settings.get_package_root_dirs()`, the package locator
`get_installed_package_data`, and the `git` backend entry points
`git.Repository.IsValid` (cheap probe, never raises) and the
`git.Repository(dir)` constructor (may raise).  Locator entries are
`Option PkgInfo`: `none` models a falsy (e.g. `None`) descriptor. -/
structure GitEnv where
  HOME_DIR : String
  packageRootDirs : List String
  get_installed_package_data : String → List (Option PkgInfo)
  IsValid : String → Bool
  repository : String → Except String Repo

/-- `git.UsernamePasswordCredentials` with `Username`/`Password` fields. -/
structure UsernamePasswordCredentials where
  Username : String
  Password : String
deriving DecidableEq

/-- `git.FetchOptions`; the updater only sets `CredentialsProvider`, the
delegate invoked as `(url, uname, types)`.  `types` (a `CredentialTypes`
enum value) is modelled as a `Nat`. -/
structure FetchOptionsT where
  CredentialsProvider : String → String → Nat → UsernamePasswordCredentials

/-- `git.PullOptions`; the updater only sets its nested `FetchOptions`. -/
structure PullOptionsT where
  fetchOptions : FetchOptionsT

/-- Source lines 23-27: the credentials handler returns a fixed
`UsernamePasswordCredentials` regardless of its three arguments. -/
def hndlr (_url _uname : String) (_types : Nat) : UsernamePasswordCredentials :=
  { Username := "eirannejad@gmail.com", Password := "ehsan2010" }

/-- Source lines 30-34: `_make_pull_options` builds `PullOptions` whose
`FetchOptions.CredentialsProvider` wraps `hndlr`. -/
def _make_pull_options : PullOptionsT :=
  { fetchOptions := { CredentialsProvider := hndlr } }

/-- Source lines 37-40: `_make_fetch_options` builds `FetchOptions` whose
`CredentialsProvider` wraps `hndlr`. -/
def _make_fetch_options : FetchOptionsT :=
  { CredentialsProvider := hndlr }

/-- The construction shared by source lines 49-50 and 71-72:
`repo = git.Repository(dir)` followed by
`PyRevitRepoInfo(repo.Info.WorkingDirectory, repo.Head.Name,
repo.Head.Tip.Id.Sha, repo)`.  Yields `none` when either the constructor or
the `Head.Tip` access raises; both sites wrap exactly this region in
`try/except`. -/
def open_repo_info (env : GitEnv) (dir : String) : Option PyRevitRepoInfo :=
  match env.repository dir with
  | Except.error _ => none
  | Except.ok repo =>
    match repo.tip with
    | Except.error _ => none
    | Except.ok c => some ⟨repo.workingDirectory, repo.headName, c.sha, repo⟩

/-- Source lines 47-52: `get_pyrevit_repo`.  Returns the repo info for
`HOME_DIR`, or `None` (with one error log line) when construction raises. -/
def get_pyrevit_repo (env : GitEnv) : Option PyRevitRepoInfo × List LogEntry :=
  match open_repo_info env env.HOME_DIR with
  | some ri => (some ri, [])
  | none => (none, [LogEntry.errCannotCreateRepo env.HOME_DIR])

/-- Inner loop of source lines 62-64: keep a located descriptor only when it
is truthy and `git.Repository.IsValid(pkg_info.directory)` holds; the guard
short-circuits, so `IsValid` is never consulted for a `none` descriptor. -/
def pkgs_of_root (env : GitEnv) : List (Option PkgInfo) → List PkgInfo
  | [] => []
  | none :: rest => pkgs_of_root env rest
  | some p :: rest =>
    if env.IsValid p.directory then p :: pkgs_of_root env rest
    else pkgs_of_root env rest

/-- Outer loop of source lines 60-64: collect valid package descriptors under
every configured package root directory, in discovery order. -/
def collect_pkgs (env : GitEnv) : List String → List PkgInfo
  | [] => []
  | root :: rest =>
    pkgs_of_root env (env.get_installed_package_data root) ++ collect_pkgs env rest

/-- The `pkgs` list of `get_thirdparty_pkg_repos` after the filtering loop. -/
def valid_pkgs (env : GitEnv) : List PkgInfo :=
  collect_pkgs env env.packageRootDirs

/-- Debug rendering of a package list (`'\x7b\x7d'.format(pkgs)`, line 66). -/
def pkgsRepr (ps : List PkgInfo) : String :=
  String.intercalate ", " (ps.map PkgInfo.directory)

/-- Debug rendering of a branch list (`[b for b in repo_branches]`, line 109). -/
def branchesRepr (bs : List Branch) : String :=
  String.intercalate ", " (bs.map Branch.canonicalName)

/-- Source lines 68-75: for each surviving descriptor, try to construct a
repo handle; a construction failure appends one error log line naming the
descriptor directory and drops the candidate. -/
def repos_loop (env : GitEnv) : List PkgInfo → List PyRevitRepoInfo × List LogEntry
  | [] => ([], [])
  | p :: rest =>
    match open_repo_info env p.directory with
    | some ri =>
      ((ri :: (repos_loop env rest).1), (repos_loop env rest).2)
    | none =>
      ((repos_loop env rest).1,
       LogEntry.errCannotCreateRepo p.directory :: (repos_loop env rest).2)

/-- Source lines 55-77: `get_thirdparty_pkg_repos`. -/
def get_thirdparty_pkg_repos (env : GitEnv) : List PyRevitRepoInfo × List LogEntry :=
  ((repos_loop env (valid_pkgs env)).1,
   LogEntry.debug "Finding installed repos..." ::
   LogEntry.debug ("Valid third-party packages for update: " ++ pkgsRepr (valid_pkgs env)) ::
   (repos_loop env (valid_pkgs env)).2)

/-- Source lines 80-83: `get_all_available_repos` builds
`[get_pyrevit_repo()]` — whatever that returned, including `None` — and
extends it with the third-party repo infos. -/
def get_all_available_repos (env : GitEnv) :
    List (Option PyRevitRepoInfo) × List LogEntry :=
  ((get_pyrevit_repo env).1 :: (get_thirdparty_pkg_repos env).1.map some,
   (get_pyrevit_repo env).2 ++ (get_thirdparty_pkg_repos env).2)

/-- Source lines 86-102: `update_pyrevit`.  The pre-update head read
(`repo.Head.Tip.Message` / `.Id.Sha`, lines 90-91) happens OUTSIDE the
`try`, so its exception propagates (`Except.error`).  Inside the `try`, a
successful `Pull` re-reads the head (always on a commit after a successful
pull) and returns `True`; any exception is caught, logged and `False` is
returned.  The returned `Repo` is the post-call repository state: updated
by a successful pull, untouched otherwise (the function performs no other
mutation). -/
def update_pyrevit (ri : PyRevitRepoInfo) :
    Except String (Bool × Repo × List LogEntry) :=
  match ri.repo.tip with
  | Except.error e => Except.error e
  | Except.ok c =>
    match ri.repo.pullResult with
    | Except.ok newC =>
      Except.ok (true, { ri.repo with tip := Except.ok newC },
        [LogEntry.debug ("Updating repo: " ++ ri.directory),
         LogEntry.debug ("Current head is: " ++ c.sha ++ " > " ++ stripNL c.message),
         LogEntry.debug ("Successfully updated repo: " ++ ri.directory),
         LogEntry.debug ("New head is: " ++ newC.sha ++ " > " ++ stripNL newC.message)])
    | Except.error pullErr =>
      Except.ok (false, ri.repo,
        [LogEntry.debug ("Updating repo: " ++ ri.directory),
         LogEntry.debug ("Current head is: " ++ c.sha ++ " > " ++ stripNL c.message),
         LogEntry.errFailedUpdating ri.directory pullErr])

/-- Source lines 111-116: the fetch pass of `has_pending_updates`.  Every
remote is attempted; a failure adds one error line and the loop continues. -/
def fetch_loop (fetchRes : Remote → Except String Unit) (dir : String) :
    List Remote → List LogEntry
  | [] => []
  | r :: rest =>
    match fetchRes r with
    | Except.ok _ =>
      LogEntry.debug ("Fetching remote: " ++ r.name ++ " of " ++ dir) ::
      fetch_loop fetchRes dir rest
    | Except.error e =>
      LogEntry.debug ("Fetching remote: " ++ r.name ++ " of " ++ dir) ::
      LogEntry.errFailedFetching dir (stripNL e) ::
      fetch_loop fetchRes dir rest

/-- Source lines 118-131: the comparison pass of `has_pending_updates`.
Remote-tracking branches are skipped; a local branch with a falsy
`TrackedBranch` is skipped; otherwise the divergence is computed and
`BehindBy > 0` returns `True` immediately; an exception in the computation
is caught, logged, and the loop continues. -/
def branch_loop (div : Branch → Except String HistDiv) (repoDir : String) :
    List Branch → Bool × List LogEntry
  | [] => (false, [])
  | b :: rest =>
    if b.isRemote then branch_loop div repoDir rest
    else
      match b.trackedBranch with
      | none => branch_loop div repoDir rest
      | some tb =>
        match div b with
        | Except.ok hd =>
          if hd.BehindBy > 0 then
            (true,
             [LogEntry.debug ("Comparing heads: " ++ b.canonicalName ++ " of " ++ tb.canonicalName)])
          else
            ((branch_loop div repoDir rest).1,
             LogEntry.debug ("Comparing heads: " ++ b.canonicalName ++ " of " ++ tb.canonicalName) ::
             (branch_loop div repoDir rest).2)
        | Except.error e =>
          ((branch_loop div repoDir rest).1,
           LogEntry.debug ("Comparing heads: " ++ b.canonicalName ++ " of " ++ tb.canonicalName) ::
           LogEntry.errCannotCompare b.canonicalName repoDir (stripNL e) ::
           (branch_loop div repoDir rest).2)

/-- Source lines 105-132: `has_pending_updates`.  Fetch every remote
(best effort), then scan the local branches; `calcDivergence` is the
post-fetch divergence oracle, so the comparison happens after all remotes
were attempted. -/
def has_pending_updates (ri : PyRevitRepoInfo) : Bool × List LogEntry :=
  ((branch_loop ri.repo.calcDivergence ri.repo.workingDirectory ri.repo.branches).1,
   LogEntry.debug ("Fetching updates for: " ++ ri.directory) ::
   LogEntry.debug ("Repo branches: " ++ branchesRepr ri.repo.branches) ::
   fetch_loop ri.repo.fetchResult ri.directory ri.repo.remotes ++
   (branch_loop ri.repo.calcDivergence ri.repo.workingDirectory ri.repo.branches).2)

/-- Did `update_pyrevit` return normally (no exception escaped)? -/
def updOk (r : Except String (Bool × Repo × List LogEntry)) : Bool :=
  match r with
  | Except.ok _ => true
  | Except.error _ => false

/-- The boolean result of a normal return of `update_pyrevit`. -/
def updResult (r : Except String (Bool × Repo × List LogEntry)) : Option Bool :=
  match r with
  | Except.ok x => some x.1
  | Except.error _ => none

/-- The head (`repo.Head.Tip`) of the post-call repository state, re-read
fresh from the repository `update_pyrevit` hands back. -/
def updRepoTip (r : Except String (Bool × Repo × List LogEntry)) :
    Option (Except String Commit) :=
  match r with
  | Except.ok x => some x.2.1.tip
  | Except.error _ => none

/-- Whether a given log line was emitted by a normal return of
`update_pyrevit`. -/
def logsContain (r : Except String (Bool × Repo × List LogEntry))
    (entry : LogEntry) : Bool :=
  match r with
  | Except.ok x => x.2.2.any (fun l => decide (l = entry))
  | Except.error _ => false

/-- A repository object whose `Head.Tip` access raises (e.g. an unborn
HEAD, where `Tip` is null and reading `.Message` on it throws). -/
def cexRepoNoTip : Repo where
  workingDirectory := "/pyRevit"
  headName := "refs/heads/master"
  tip := Except.error "NoneType object has no attribute Message"
  branches := []
  remotes := []
  fetchResult := fun _ => Except.ok ()
  calcDivergence := fun _ => Except.error "no divergence"
  pullResult := Except.ok ⟨"abc123", "merge"⟩

/-- A repository handle wrapping `cexRepoNoTip`. -/
def cexRepoInfoNoTip : PyRevitRepoInfo :=
  ⟨"/pyRevit", "refs/heads/master", "", cexRepoNoTip⟩

/-- A repository object with a readable head whose pull fails (e.g. the
backend rejects the supplied credentials). -/
def wRepoPullFail : Repo where
  workingDirectory := "/pkgs/extA"
  headName := "refs/heads/master"
  tip := Except.ok ⟨"aaa111", "initial commit"⟩
  branches := []
  remotes := []
  fetchResult := fun _ => Except.ok ()
  calcDivergence := fun _ => Except.ok ⟨0, 0⟩
  pullResult := Except.error "authentication failed: credentials rejected"

/-- A repository handle wrapping `wRepoPullFail`. -/
def wRiPullFail : PyRevitRepoInfo :=
  ⟨"/pkgs/extA", "refs/heads/master", "aaa111", wRepoPullFail⟩

/-- C1, counterexample.  The claim says `update_pyrevit` never lets an
exception propagate to its caller.  But the pre-update head read
(`str(repo.Head.Tip.Message)`, source line 90) is OUTSIDE the `try` block,
so when the `Head.Tip` access raises, the exception escapes `update_pyrevit`
(modelled as an `Except.error` return instead of a normal `Except.ok`):
here the call neither returns `False` nor logs a failure line. -/
theorem C1_counterexample :
    update_pyrevit cexRepoInfoNoTip =
      Except.error "NoneType object has no attribute Message" := rfl

/-- C1 (amended): for every repository handle whose pre-update head read
succeeds (in particular every handle constructed by discovery, which snapshots
a readable head), `update_pyrevit` never lets an exception propagate: it
always returns normally, every success path of the pull yields `True`, and
every failure path of the pull yields `False` plus an error log line naming
the repository directory and the underlying error. -/
theorem C1_update_no_exception (ri : PyRevitRepoInfo) (c : Commit)
    (h : ri.repo.tip = Except.ok c) :
    updOk (update_pyrevit ri) = true
    ∧ (∀ newC, ri.repo.pullResult = Except.ok newC →
        updResult (update_pyrevit ri) = some true)
    ∧ (∀ pe, ri.repo.pullResult = Except.error pe →
        updResult (update_pyrevit ri) = some false
        ∧ logsContain (update_pyrevit ri)
            (LogEntry.errFailedUpdating ri.directory pe) = true
        ∧ (LogEntry.errFailedUpdating ri.directory pe).isError = true) := by
  cases hp : ri.repo.pullResult with
  | ok newC =>
    refine ⟨?_, ?_, ?_⟩
    · simp [update_pyrevit, h, hp, updOk]
    · intro newC2 _
      simp [update_pyrevit, h, hp, updResult]
    · intro pe hpe
      exact absurd hpe (by simp)
  | error pe =>
    refine ⟨?_, ?_, ?_⟩
    · simp [update_pyrevit, h, hp, updOk]
    · intro newC2 hok
      exact absurd hok (by simp)
    · intro pe2 hpe
      cases hpe
      refine ⟨?_, ?_, rfl⟩
      · simp [update_pyrevit, h, hp, updResult]
      · simp [update_pyrevit, h, hp, logsContain]

/-- C1, witness: a concrete handle with a readable head and a rejected pull;
`update_pyrevit` returns normally. -/
theorem C1_update_no_exception_witness :
    updOk (update_pyrevit wRiPullFail) = true :=
  (C1_update_no_exception wRiPullFail ⟨"aaa111", "initial commit"⟩ rfl).1

/-- C8: when the pull fails (credentials rejected by the backend — the only
way `update_pyrevit` reaches the pull is after the pre-update head read
succeeded), the call returns `False` and the head commit of the repository
state it hands back, re-read fresh, is the pre-update head: `update_pyrevit`
performs no mutation of its own, so a failed pull leaves the head
observably unchanged. -/
theorem C8_failed_pull_head_unchanged (ri : PyRevitRepoInfo) (c : Commit)
    (e : String) (h1 : ri.repo.tip = Except.ok c)
    (h2 : ri.repo.pullResult = Except.error e) :
    updResult (update_pyrevit ri) = some false
    ∧ updRepoTip (update_pyrevit ri) = some ri.repo.tip := by
  constructor
  · simp [update_pyrevit, h1, h2, updResult]
  · simp [update_pyrevit, h1, h2, updRepoTip]

/-- C8, witness: the concrete rejected-credentials handle; the result is
`False` and the freshly re-read head equals the pre-update head. -/
theorem C8_failed_pull_head_unchanged_witness :
    updResult (update_pyrevit wRiPullFail) = some false
    ∧ updRepoTip (update_pyrevit wRiPullFail) = some wRiPullFail.repo.tip :=
  C8_failed_pull_head_unchanged wRiPullFail ⟨"aaa111", "initial commit"⟩
    "authentication failed: credentials rejected" rfl rfl

/-- C9: the credentials handler `hndlr` returns the same hardcoded
username/password pair for every `(url, uname, types)` input, and both
`_make_pull_options` and `_make_fetch_options` install exactly `hndlr` as
their credentials provider, so the credentials attached to every fetch and
every pull are identical and independent of the remote URL and of any
external credential provider. -/
theorem C9_fixed_credentials (url uname : String) (types : Nat) :
    hndlr url uname types =
      { Username := "eirannejad@gmail.com", Password := "ehsan2010" }
    ∧ _make_pull_options.fetchOptions.CredentialsProvider url uname types =
        hndlr url uname types
    ∧ _make_fetch_options.CredentialsProvider url uname types =
        hndlr url uname types :=
  ⟨rfl, rfl, rfl⟩

/-- C9, witness: a concrete invocation of the credentials handler. -/
theorem C9_fixed_credentials_witness :
    hndlr "https://github.com/eirannejad/pyRevit.git" "user" 0 =
      { Username := "eirannejad@gmail.com", Password := "ehsan2010" } :=
  (C9_fixed_credentials "https://github.com/eirannejad/pyRevit.git" "user" 0).1

/-- An environment in which opening the home repository fails and no
third-party package exists. -/
def cexEnvHomeFail : GitEnv where
  HOME_DIR := "/pyRevit"
  packageRootDirs := []
  get_installed_package_data := fun _ => []
  IsValid := fun _ => false
  repository := fun _ => Except.error "could not open repository"

/-- C2, counterexample.  The claim says that when construction of the
primary handle fails, the returned ordered set contains only the third-party
handles (here: none at all, so it should be `[]`).  But source line 81 builds
`[get_pyrevit_repo()]` from whatever `get_pyrevit_repo` returned — `None` on
failure — so the result is `[none]`: the failed primary entry is present as
a `None` placeholder, not omitted. -/
theorem C2_counterexample :
    (get_all_available_repos cexEnvHomeFail).1 = [none]
    ∧ (get_thirdparty_pkg_repos cexEnvHomeFail).1 = [] :=
  ⟨rfl, rfl⟩

/-- C2 (amended): the returned ordered list is always
`get_pyrevit_repo's result :: third-party handles in discovery order`.
When primary construction succeeds the primary handle is the first element;
when it fails, the failure is logged and the first element is `none` (a
`None` placeholder — the primary entry is not omitted from the list). -/
theorem C2_all_repos_order (env : GitEnv) :
    (get_all_available_repos env).1 =
      (get_pyrevit_repo env).1 :: (get_thirdparty_pkg_repos env).1.map some
    ∧ ((get_pyrevit_repo env).1 = none →
        LogEntry.errCannotCreateRepo env.HOME_DIR ∈ (get_all_available_repos env).2)
    ∧ (∀ ri, (get_pyrevit_repo env).1 = some ri →
        (get_all_available_repos env).1.head? = some (some ri)) := by
  refine ⟨rfl, ?_, ?_⟩
  · intro hfail
    unfold get_all_available_repos get_pyrevit_repo
    unfold get_pyrevit_repo at hfail
    cases hop : open_repo_info env env.HOME_DIR with
    | some ri => rw [hop] at hfail; exact absurd hfail (by simp)
    | none => simp [hop]
  · intro ri hok
    unfold get_all_available_repos
    rw [hok]
    rfl

/-- C2, witness: in the concrete failing environment, the amended shape
holds and the construction failure is logged. -/
theorem C2_all_repos_order_witness :
    LogEntry.errCannotCreateRepo cexEnvHomeFail.HOME_DIR
      ∈ (get_all_available_repos cexEnvHomeFail).2 :=
  (C2_all_repos_order cexEnvHomeFail).2.1 rfl

lemma mem_pkgs_of_root (env : GitEnv) (l : List (Option PkgInfo)) (p : PkgInfo)
    (hp : p ∈ pkgs_of_root env l) :
    some p ∈ l ∧ env.IsValid p.directory = true := by
  induction l with
  | nil => simp [pkgs_of_root] at hp
  | cons o rest ih =>
    cases o with
    | none =>
      have := ih (by simpa [pkgs_of_root] using hp)
      exact ⟨List.mem_cons_of_mem _ this.1, this.2⟩
    | some q =>
      by_cases hv : env.IsValid q.directory
      · rw [pkgs_of_root, if_pos hv] at hp
        rcases List.mem_cons.1 hp with rfl | hp2
        · exact ⟨List.mem_cons_self _ _, hv⟩
        · have := ih hp2
          exact ⟨List.mem_cons_of_mem _ this.1, this.2⟩
      · rw [pkgs_of_root, if_neg hv] at hp
        have := ih hp
        exact ⟨List.mem_cons_of_mem _ this.1, this.2⟩

lemma mem_collect_pkgs (env : GitEnv) (roots : List String) (p : PkgInfo)
    (hp : p ∈ collect_pkgs env roots) :
    ∃ root, root ∈ roots ∧ some p ∈ env.get_installed_package_data root
      ∧ env.IsValid p.directory = true := by
  induction roots with
  | nil => simp [collect_pkgs] at hp
  | cons root rest ih =>
    rw [collect_pkgs] at hp
    rcases List.mem_append.1 hp with hp1 | hp2
    · have := mem_pkgs_of_root env _ p hp1
      exact ⟨root, List.mem_cons_self _ _, this.1, this.2⟩
    · rcases ih hp2 with ⟨root2, hr, hmem, hv⟩
      exact ⟨root2, List.mem_cons_of_mem _ hr, hmem, hv⟩

lemma mem_repos_loop (env : GitEnv) (pkgs : List PkgInfo) (ri : PyRevitRepoInfo)
    (hri : ri ∈ (repos_loop env pkgs).1) :
    ∃ p, p ∈ pkgs ∧ open_repo_info env p.directory = some ri := by
  induction pkgs with
  | nil => simp [repos_loop] at hri
  | cons p rest ih =>
    rw [repos_loop] at hri
    cases hop : open_repo_info env p.directory with
    | some ri2 =>
      rw [hop] at hri
      rcases List.mem_cons.1 hri with rfl | hri2
      · exact ⟨p, List.mem_cons_self _ _, hop⟩
      · rcases ih hri2 with ⟨q, hq, hqop⟩
        exact ⟨q, List.mem_cons_of_mem _ hq, hqop⟩
    | none =>
      rw [hop] at hri
      rcases ih hri with ⟨q, hq, hqop⟩
      exact ⟨q, List.mem_cons_of_mem _ hq, hqop⟩

lemma repos_loop_no_err (env : GitEnv) (D : String) (pkgs : List PkgInfo)
    (hD : ∀ p, p ∈ pkgs → p.directory ≠ D) :
    LogEntry.errCannotCreateRepo D ∉ (repos_loop env pkgs).2 := by
  induction pkgs with
  | nil => simp [repos_loop]
  | cons p rest ih =>
    rw [repos_loop]
    have hrest := ih (fun q hq => hD q (List.mem_cons_of_mem _ hq))
    cases hop : open_repo_info env p.directory with
    | some ri => simpa using hrest
    | none =>
      intro hmem
      rcases List.mem_cons.1 hmem with heq | hmem2
      · exact hD p (List.mem_cons_self _ _) (LogEntry.errCannotCreateRepo.injEq _ _ ▸ heq.symm ▸ rfl)
      · exact hrest hmem2

/-- C5: a candidate directory that fails the cheap `IsValid` probe is
silently skipped: it never survives the filtering pass, every handle in the
discovery result originates from a surviving candidate with a different
directory, and no open-error log line for it is ever emitted. -/
theorem C5_invalid_probe_silently_skipped (env : GitEnv) (D : String)
    (h : env.IsValid D = false) :
    (∀ p, p ∈ valid_pkgs env → p.directory ≠ D)
    ∧ (∀ ri, ri ∈ (get_thirdparty_pkg_repos env).1 →
        ∃ p, p ∈ valid_pkgs env ∧ p.directory ≠ D
          ∧ open_repo_info env p.directory = some ri)
    ∧ LogEntry.errCannotCreateRepo D ∉ (get_thirdparty_pkg_repos env).2 := by
  have hdir : ∀ p, p ∈ valid_pkgs env → p.directory ≠ D := by
    intro p hp heq
    rcases mem_collect_pkgs env _ p hp with ⟨root, _, _, hv⟩
    rw [heq, h] at hv
    exact Bool.false_ne_true hv
  refine ⟨hdir, ?_, ?_⟩
  · intro ri hri
    rcases mem_repos_loop env _ ri hri with ⟨p, hp, hop⟩
    exact ⟨p, hp, hdir p hp, hop⟩
  · rw [get_thirdparty_pkg_repos]
    intro hmem
    rcases List.mem_cons.1 hmem with heq | hmem2
    · exact absurd heq (by simp)
    rcases List.mem_cons.1 hmem2 with heq | hmem3
    · exact absurd heq (by simp)
    exact repos_loop_no_err env D _ hdir hmem3

/-- A discovery environment whose single candidate fails the probe. -/
def wEnvProbeFail : GitEnv where
  HOME_DIR := "/pyRevit"
  packageRootDirs := ["/pkgs"]
  get_installed_package_data := fun _ => [some ⟨"/pkgs/extB"⟩]
  IsValid := fun _ => false
  repository := fun _ => Except.error "could not open repository"

/-- C5, witness: the invalid candidate produces no open-error log line. -/
theorem C5_invalid_probe_silently_skipped_witness :
    LogEntry.errCannotCreateRepo "/pkgs/extB"
      ∉ (get_thirdparty_pkg_repos wEnvProbeFail).2 :=
  (C5_invalid_probe_silently_skipped wEnvProbeFail "/pkgs/extB" rfl).2.2

lemma repos_loop_err_count (env : GitEnv) (D : String)
    (hD : open_repo_info env D = none) (pkgs : List PkgInfo) :
    (repos_loop env pkgs).2.countP
        (fun e => decide (e = LogEntry.errCannotCreateRepo D))
      = pkgs.countP (fun p => decide (p.directory = D)) := by
  induction pkgs with
  | nil => simp [repos_loop]
  | cons p rest ih =>
    rw [repos_loop]
    by_cases hpd : p.directory = D
    · rw [hpd, hD]
      simp [List.countP_cons, hpd, ih]
    · cases hop : open_repo_info env p.directory with
      | some ri => simp [List.countP_cons, hpd, ih]
      | none => simp [List.countP_cons, hpd, ih]

/-- C6: when a directory `D` occurs exactly once among the candidates that
passed the validity probe (membership in `valid_pkgs` implies the probe
succeeded) and the handle construction for `D` fails, discovery emits
exactly one open-error log line referencing `D`, and every handle in the
result originates from a surviving candidate with a different directory —
`D` is excluded from the result. -/
theorem C6_open_failure_logged_once (env : GitEnv) (D : String)
    (h1 : (valid_pkgs env).countP (fun p => decide (p.directory = D)) = 1)
    (h2 : open_repo_info env D = none) :
    (get_thirdparty_pkg_repos env).2.countP
        (fun e => decide (e = LogEntry.errCannotCreateRepo D)) = 1
    ∧ (∀ ri, ri ∈ (get_thirdparty_pkg_repos env).1 →
        ∃ p, p ∈ valid_pkgs env ∧ p.directory ≠ D
          ∧ open_repo_info env p.directory = some ri) := by
  constructor
  · rw [get_thirdparty_pkg_repos]
    simp only [List.countP_cons]
    rw [repos_loop_err_count env D h2 (valid_pkgs env), h1]
    simp
  · intro ri hri
    rcases mem_repos_loop env _ ri hri with ⟨p, hp, hop⟩
    refine ⟨p, hp, ?_, hop⟩
    intro heq
    rw [heq, h2] at hop
    exact Option.noConfusion hop

/-- A discovery environment whose single candidate passes the probe but
whose handle construction fails. -/
def wEnvOpenFail : GitEnv where
  HOME_DIR := "/pyRevit"
  packageRootDirs := ["/pkgs"]
  get_installed_package_data := fun _ => [some ⟨"/pkgs/extB"⟩]
  IsValid := fun _ => true
  repository := fun _ => Except.error "corrupt repository metadata"

/-- C6, witness: the failing candidate is logged exactly once. -/
theorem C6_open_failure_logged_once_witness :
    (get_thirdparty_pkg_repos wEnvOpenFail).2.countP
        (fun e => decide (e = LogEntry.errCannotCreateRepo "/pkgs/extB")) = 1 :=
  (C6_open_failure_logged_once wEnvOpenFail "/pkgs/extB" (by decide) rfl).1

lemma pkgs_of_root_drop_none (env : GitEnv) (l : List (Option PkgInfo)) :
    pkgs_of_root env ((l.filterMap id).map some) = pkgs_of_root env l := by
  induction l with
  | nil => rfl
  | cons o rest ih =>
    cases o with
    | none => simpa [pkgs_of_root] using ih
    | some p =>
      by_cases hv : env.IsValid p.directory
      · simp [pkgs_of_root, List.filterMap_cons, hv, ih]
      · simp [pkgs_of_root, List.filterMap_cons, hv, ih]

lemma pkgs_of_root_congr (env env2 : GitEnv) (h : env2.IsValid = env.IsValid)
    (l : List (Option PkgInfo)) : pkgs_of_root env2 l = pkgs_of_root env l := by
  induction l with
  | nil => rfl
  | cons o rest ih =>
    cases o with
    | none => simpa [pkgs_of_root] using ih
    | some p =>
      by_cases hv : env.IsValid p.directory
      · simp [pkgs_of_root, h, hv, ih]
      · simp [pkgs_of_root, h, hv, ih]

lemma collect_pkgs_drop_none (env env2 : GitEnv)
    (hIs : env2.IsValid = env.IsValid)
    (hloc : ∀ r, env2.get_installed_package_data r =
      ((env.get_installed_package_data r).filterMap id).map some)
    (roots : List String) :
    collect_pkgs env2 roots = collect_pkgs env roots := by
  induction roots with
  | nil => rfl
  | cons root rest ih =>
    rw [collect_pkgs, collect_pkgs, ih, hloc root,
      pkgs_of_root_congr env env2 hIs, pkgs_of_root_drop_none]

/-- C10: the truthiness guard on each located descriptor drops falsy
(`None`) entries before the validity probe runs: replacing the locator
output with its `None`-free cleanup changes nothing, and every descriptor
in the filtered result is a truthy (`some`) locator entry that passed the
probe — no `None` is ever dereferenced or included. -/
theorem C10_none_descriptors_filtered (env : GitEnv) :
    valid_pkgs env =
      valid_pkgs { env with
        get_installed_package_data :=
          fun r => ((env.get_installed_package_data r).filterMap id).map some }
    ∧ (∀ p, p ∈ valid_pkgs env →
        ∃ root, root ∈ env.packageRootDirs
          ∧ some p ∈ env.get_installed_package_data root
          ∧ env.IsValid p.directory = true) := by
  constructor
  · exact (collect_pkgs_drop_none env
      { env with
        get_installed_package_data :=
          fun r => ((env.get_installed_package_data r).filterMap id).map some }
      rfl (fun _ => rfl) env.packageRootDirs).symm
  · exact fun p hp => mem_collect_pkgs env _ p hp

/-- A locator output containing a falsy (`None`) descriptor. -/
def wEnvNoneDescr : GitEnv where
  HOME_DIR := "/pyRevit"
  packageRootDirs := ["/pkgs"]
  get_installed_package_data := fun _ => [none, some ⟨"/pkgs/extA"⟩]
  IsValid := fun _ => true
  repository := fun _ => Except.error "not opened"

/-- C10, witness: on a concrete locator output with a `None` entry, the
`None`-free cleanup yields the same filtered package list. -/
theorem C10_none_descriptors_filtered_witness :
    valid_pkgs wEnvNoneDescr =
      valid_pkgs { wEnvNoneDescr with
        get_installed_package_data :=
          fun r => ((wEnvNoneDescr.get_installed_package_data r).filterMap id).map some } :=
  (C10_none_descriptors_filtered wEnvNoneDescr).1

lemma branch_loop_cons_remote (div : Branch → Except String HistDiv)
    (repoDir : String) (b : Branch) (rest : List Branch)
    (h : b.isRemote = true) :
    branch_loop div repoDir (b :: rest) = branch_loop div repoDir rest := by
  rw [branch_loop, if_pos h]

lemma branch_loop_cons_untracked (div : Branch → Except String HistDiv)
    (repoDir : String) (b : Branch) (rest : List Branch)
    (h1 : b.isRemote = false) (h2 : b.trackedBranch = none) :
    branch_loop div repoDir (b :: rest) = branch_loop div repoDir rest := by
  rw [branch_loop, if_neg (by simp [h1]), h2]

lemma branch_loop_cons_behind (div : Branch → Except String HistDiv)
    (repoDir : String) (b : Branch) (tb : TrackedBranchInfo)
    (rest : List Branch) (hd : HistDiv)
    (h1 : b.isRemote = false) (h2 : b.trackedBranch = some tb)
    (h3 : div b = Except.ok hd) (h4 : hd.BehindBy > 0) :
    branch_loop div repoDir (b :: rest) =
      (true,
       [LogEntry.debug ("Comparing heads: " ++ b.canonicalName ++ " of " ++ tb.canonicalName)]) := by
  rw [branch_loop, if_neg (by simp [h1]), h2, h3]
  simp [h4]

lemma branch_loop_cons_zero (div : Branch → Except String HistDiv)
    (repoDir : String) (b : Branch) (tb : TrackedBranchInfo)
    (rest : List Branch) (hd : HistDiv)
    (h1 : b.isRemote = false) (h2 : b.trackedBranch = some tb)
    (h3 : div b = Except.ok hd) (h4 : ¬ hd.BehindBy > 0) :
    branch_loop div repoDir (b :: rest) =
      ((branch_loop div repoDir rest).1,
       LogEntry.debug ("Comparing heads: " ++ b.canonicalName ++ " of " ++ tb.canonicalName) ::
       (branch_loop div repoDir rest).2) := by
  rw [branch_loop, if_neg (by simp [h1]), h2, h3]
  simp [h4]

lemma branch_loop_cons_err (div : Branch → Except String HistDiv)
    (repoDir : String) (b : Branch) (tb : TrackedBranchInfo)
    (rest : List Branch) (e : String)
    (h1 : b.isRemote = false) (h2 : b.trackedBranch = some tb)
    (h3 : div b = Except.error e) :
    branch_loop div repoDir (b :: rest) =
      ((branch_loop div repoDir rest).1,
       LogEntry.debug ("Comparing heads: " ++ b.canonicalName ++ " of " ++ tb.canonicalName) ::
       LogEntry.errCannotCompare b.canonicalName repoDir (stripNL e) ::
       (branch_loop div repoDir rest).2) := by
  rw [branch_loop, if_neg (by simp [h1]), h2, h3]

lemma branch_loop_true_iff (div : Branch → Except String HistDiv)
    (repoDir : String) (bs : List Branch) :
    (branch_loop div repoDir bs).1 = true ↔
      ∃ b, b ∈ bs ∧ b.isRemote = false
        ∧ (∃ tb, b.trackedBranch = some tb)
        ∧ (∃ hd, div b = Except.ok hd ∧ hd.BehindBy > 0) := by
  induction bs with
  | nil => simp [branch_loop]
  | cons b rest ih =>
    have step_skip : branch_loop div repoDir (b :: rest) = branch_loop div repoDir rest →
        ((branch_loop div repoDir (b :: rest)).1 = true ↔
          ∃ b2, b2 ∈ rest ∧ b2.isRemote = false
            ∧ (∃ tb, b2.trackedBranch = some tb)
            ∧ (∃ hd, div b2 = Except.ok hd ∧ hd.BehindBy > 0)) := by
      intro heq
      rw [heq, ih]
    cases hbr : b.isRemote with
    | true =>
      rw [step_skip (branch_loop_cons_remote div repoDir b rest hbr)]
      constructor
      · rintro ⟨b2, hb2, hprops⟩
        exact ⟨b2, List.mem_cons_of_mem _ hb2, hprops⟩
      · rintro ⟨b2, hb2, hrem, hprops⟩
        rcases List.mem_cons.1 hb2 with rfl | hb2m
        · rw [hbr] at hrem; exact absurd hrem (by simp)
        · exact ⟨b2, hb2m, hrem, hprops⟩
    | false =>
      cases htb : b.trackedBranch with
      | none =>
        rw [step_skip (branch_loop_cons_untracked div repoDir b rest hbr htb)]
        constructor
        · rintro ⟨b2, hb2, hprops⟩
          exact ⟨b2, List.mem_cons_of_mem _ hb2, hprops⟩
        · rintro ⟨b2, hb2, hrem, ⟨tb, htb2⟩, hprops⟩
          rcases List.mem_cons.1 hb2 with rfl | hb2m
          · rw [htb] at htb2; exact absurd htb2 (by simp)
          · exact ⟨b2, hb2m, hrem, ⟨tb, htb2⟩, hprops⟩
      | some tb =>
        cases hdiv : div b with
        | ok hd =>
          by_cases hbehind : hd.BehindBy > 0
          · rw [branch_loop_cons_behind div repoDir b tb rest hd hbr htb hdiv hbehind]
            simp only [true_iff]
            exact ⟨b, List.mem_cons_self _ _, hbr, ⟨tb, htb⟩, ⟨hd, hdiv, hbehind⟩⟩
          · rw [branch_loop_cons_zero div repoDir b tb rest hd hbr htb hdiv hbehind]
            rw [show ((branch_loop div repoDir rest).1,
                LogEntry.debug ("Comparing heads: " ++ b.canonicalName ++ " of " ++ tb.canonicalName) ::
                (branch_loop div repoDir rest).2).1 = (branch_loop div repoDir rest).1 from rfl]
            rw [ih]
            constructor
            · rintro ⟨b2, hb2, hprops⟩
              exact ⟨b2, List.mem_cons_of_mem _ hb2, hprops⟩
            · rintro ⟨b2, hb2, hrem, htb2, ⟨hd2, hdiv2, hpos⟩⟩
              rcases List.mem_cons.1 hb2 with rfl | hb2m
              · rw [hdiv] at hdiv2
                cases hdiv2
                exact absurd hpos hbehind
              · exact ⟨b2, hb2m, hrem, htb2, ⟨hd2, hdiv2, hpos⟩⟩
        | error e =>
          rw [branch_loop_cons_err div repoDir b tb rest e hbr htb hdiv]
          rw [show ((branch_loop div repoDir rest).1,
              LogEntry.debug ("Comparing heads: " ++ b.canonicalName ++ " of " ++ tb.canonicalName) ::
              LogEntry.errCannotCompare b.canonicalName repoDir (stripNL e) ::
              (branch_loop div repoDir rest).2).1 = (branch_loop div repoDir rest).1 from rfl]
          rw [ih]
          constructor
          · rintro ⟨b2, hb2, hprops⟩
            exact ⟨b2, List.mem_cons_of_mem _ hb2, hprops⟩
          · rintro ⟨b2, hb2, hrem, htb2, ⟨hd2, hdiv2, hpos⟩⟩
            rcases List.mem_cons.1 hb2 with rfl | hb2m
            · rw [hdiv] at hdiv2; exact absurd hdiv2 (by simp)
            · exact ⟨b2, hb2m, hrem, htb2, ⟨hd2, hdiv2, hpos⟩⟩

/-- C3: `has_pending_updates` returns `True` iff some local
(non-remote-tracking) branch with a configured tracked remote branch has a
(post-fetch) divergence that computed successfully with `BehindBy > 0`; it
returns `False` when every local branch is untracked or has `BehindBy == 0`,
and branches without a tracked remote are skipped, never counted as
divergent. -/
theorem C3_pending_updates_iff (ri : PyRevitRepoInfo) :
    ((has_pending_updates ri).1 = true ↔
      ∃ b, b ∈ ri.repo.branches ∧ b.isRemote = false
        ∧ (∃ tb, b.trackedBranch = some tb)
        ∧ (∃ hd, ri.repo.calcDivergence b = Except.ok hd ∧ hd.BehindBy > 0))
    ∧ ((∀ b, b ∈ ri.repo.branches → b.isRemote = false →
          b.trackedBranch = none
          ∨ (∃ hd, ri.repo.calcDivergence b = Except.ok hd ∧ hd.BehindBy = 0)) →
        (has_pending_updates ri).1 = false) := by
  have hiff := branch_loop_true_iff ri.repo.calcDivergence
    ri.repo.workingDirectory ri.repo.branches
  constructor
  · exact hiff
  · intro hall
    cases hres : (has_pending_updates ri).1 with
    | false => rfl
    | true =>
      rcases hiff.1 hres with ⟨b, hb, hrem, ⟨tb, htb⟩, ⟨hd, hdiv, hpos⟩⟩
      rcases hall b hb hrem with hnone | ⟨hd2, hdiv2, hzero⟩
      · rw [htb] at hnone; exact absurd hnone (by simp)
      · rw [hdiv] at hdiv2
        cases hdiv2
        omega

/-- A local branch tracking a remote branch. -/
def wBranchBehind : Branch :=
  ⟨"refs/heads/master", false, some ⟨"refs/remotes/origin/master"⟩⟩

/-- A repository one commit behind its tracked remote branch. -/
def wRepoBehind : Repo where
  workingDirectory := "/repo/main"
  headName := "refs/heads/master"
  tip := Except.ok ⟨"aaa111", "initial commit"⟩
  branches := [wBranchBehind]
  remotes := [⟨"origin"⟩]
  fetchResult := fun _ => Except.ok ()
  calcDivergence := fun _ => Except.ok ⟨1, 0⟩
  pullResult := Except.ok ⟨"bbb222", "upstream commit"⟩

/-- A repository handle wrapping `wRepoBehind`. -/
def wRiBehind : PyRevitRepoInfo :=
  ⟨"/repo/main", "refs/heads/master", "aaa111", wRepoBehind⟩

/-- C3, witness: the behind-by-one repository has pending updates. -/
theorem C3_pending_updates_iff_witness :
    (has_pending_updates wRiBehind).1 = true :=
  (C3_pending_updates_iff wRiBehind).1.mpr
    ⟨wBranchBehind, List.mem_cons_self _ _, rfl,
     ⟨⟨"refs/remotes/origin/master"⟩, rfl⟩, ⟨⟨1, 0⟩, rfl, Nat.one_pos⟩⟩

lemma fetch_loop_debug_mem (fetchRes : Remote → Except String Unit)
    (dir : String) (rs : List Remote) (r : Remote) (hr : r ∈ rs) :
    LogEntry.debug ("Fetching remote: " ++ r.name ++ " of " ++ dir)
      ∈ fetch_loop fetchRes dir rs := by
  induction rs with
  | nil => simp at hr
  | cons r2 rest ih =>
    rcases List.mem_cons.1 hr with rfl | hr2
    · cases hf : fetchRes r with
      | ok u => rw [fetch_loop, hf]; exact List.mem_cons_self _ _
      | error e => rw [fetch_loop, hf]; exact List.mem_cons_self _ _
    · cases hf : fetchRes r2 with
      | ok u =>
        rw [fetch_loop, hf]
        exact List.mem_cons_of_mem _ (ih hr2)
      | error e =>
        rw [fetch_loop, hf]
        exact List.mem_cons_of_mem _ (List.mem_cons_of_mem _ (ih hr2))

lemma fetch_loop_err_mem (fetchRes : Remote → Except String Unit)
    (dir : String) (rs : List Remote) (r : Remote) (e : String)
    (hr : r ∈ rs) (he : fetchRes r = Except.error e) :
    LogEntry.errFailedFetching dir (stripNL e) ∈ fetch_loop fetchRes dir rs := by
  induction rs with
  | nil => simp at hr
  | cons r2 rest ih =>
    rcases List.mem_cons.1 hr with rfl | hr2
    · rw [fetch_loop, he]
      exact List.mem_cons_of_mem _ (List.mem_cons_self _ _)
    · cases hf : fetchRes r2 with
      | ok u =>
        rw [fetch_loop, hf]
        exact List.mem_cons_of_mem _ (ih hr2)
      | error e2 =>
        rw [fetch_loop, hf]
        exact List.mem_cons_of_mem _ (List.mem_cons_of_mem _ (ih hr2))

/-- C4: a fetch failure on one remote is logged and does not abort the
divergence check — a per-remote fetch attempt is logged for every remote,
the boolean result is exactly the branch-comparison pass run after the
fetch pass, and replacing the fetch outcomes (e.g. making every fetch
fail or succeed) never changes the boolean result, so branches tracked
via a different, successfully-fetched remote are still evaluated. -/
theorem C4_fetch_failure_isolated (ri : PyRevitRepoInfo) (r : Remote)
    (e : String) (hr : r ∈ ri.repo.remotes)
    (he : ri.repo.fetchResult r = Except.error e) :
    LogEntry.errFailedFetching ri.directory (stripNL e)
      ∈ (has_pending_updates ri).2
    ∧ (∀ r2, r2 ∈ ri.repo.remotes →
        LogEntry.debug ("Fetching remote: " ++ r2.name ++ " of " ++ ri.directory)
          ∈ (has_pending_updates ri).2)
    ∧ (has_pending_updates ri).1 =
        (branch_loop ri.repo.calcDivergence ri.repo.workingDirectory
          ri.repo.branches).1
    ∧ (∀ f : Remote → Except String Unit,
        (has_pending_updates
          { ri with repo := { ri.repo with fetchResult := f } }).1 =
          (has_pending_updates ri).1) := by
  refine ⟨?_, ?_, rfl, fun f => rfl⟩
  · rw [has_pending_updates]
    apply List.mem_cons_of_mem
    apply List.mem_cons_of_mem
    exact List.mem_append_left _
      (fetch_loop_err_mem ri.repo.fetchResult ri.directory ri.repo.remotes r e hr he)
  · intro r2 hr2
    rw [has_pending_updates]
    apply List.mem_cons_of_mem
    apply List.mem_cons_of_mem
    exact List.mem_append_left _
      (fetch_loop_debug_mem ri.repo.fetchResult ri.directory ri.repo.remotes r2 hr2)

/-- A repository with one broken remote and one healthy remote, whose only
local branch is behind its tracked branch (fetched via the healthy remote). -/
def wRepoFetchFail : Repo where
  workingDirectory := "/repo/main"
  headName := "refs/heads/master"
  tip := Except.ok ⟨"aaa111", "initial commit"⟩
  branches := [wBranchBehind]
  remotes := [⟨"broken"⟩, ⟨"origin"⟩]
  fetchResult := fun r => if r.name = "broken" then Except.error "network unreachable" else Except.ok ()
  calcDivergence := fun _ => Except.ok ⟨1, 0⟩
  pullResult := Except.error "network unreachable"

/-- A repository handle wrapping `wRepoFetchFail`. -/
def wRiFetchFail : PyRevitRepoInfo :=
  ⟨"/repo/main", "refs/heads/master", "aaa111", wRepoFetchFail⟩

/-- C4, witness: the broken remote's fetch failure is logged, yet the
divergence check still runs and the check's boolean is the branch pass. -/
theorem C4_fetch_failure_isolated_witness :
    LogEntry.errFailedFetching "/repo/main" (stripNL "network unreachable")
      ∈ (has_pending_updates wRiFetchFail).2 :=
  (C4_fetch_failure_isolated wRiFetchFail ⟨"broken"⟩ "network unreachable"
    (List.mem_cons_self _ _) rfl).1

/-- C7: when the divergence computation for a branch raises (e.g. the
tracked branch was deleted upstream), the failure is logged, the branch is
treated as non-divergent, and the check continues with the remaining
branches instead of aborting or returning `True`. -/
theorem C7_compare_failure_skipped (ri : PyRevitRepoInfo) (b : Branch)
    (tb : TrackedBranchInfo) (rest : List Branch) (e : String)
    (hbs : ri.repo.branches = b :: rest) (h1 : b.isRemote = false)
    (h2 : b.trackedBranch = some tb)
    (h3 : ri.repo.calcDivergence b = Except.error e) :
    (has_pending_updates ri).1 =
      (branch_loop ri.repo.calcDivergence ri.repo.workingDirectory rest).1
    ∧ LogEntry.errCannotCompare b.canonicalName ri.repo.workingDirectory
        (stripNL e) ∈ (has_pending_updates ri).2 := by
  have hloop : branch_loop ri.repo.calcDivergence ri.repo.workingDirectory
      (b :: rest) =
      ((branch_loop ri.repo.calcDivergence ri.repo.workingDirectory rest).1,
       LogEntry.debug ("Comparing heads: " ++ b.canonicalName ++ " of " ++ tb.canonicalName) ::
       LogEntry.errCannotCompare b.canonicalName ri.repo.workingDirectory (stripNL e) ::
       (branch_loop ri.repo.calcDivergence ri.repo.workingDirectory rest).2) := by
    rw [branch_loop, if_neg (by simp [h1]), h2, h3]
  constructor
  · rw [has_pending_updates, hbs, hloop]
  · rw [has_pending_updates, hbs, hloop]
    apply List.mem_cons_of_mem
    apply List.mem_cons_of_mem
    apply List.mem_append_right
    exact List.mem_cons_of_mem _ (List.mem_cons_self _ _)

/-- A repository whose only branch's divergence computation raises. -/
def wRepoCmpFail : Repo where
  workingDirectory := "/repo/main"
  headName := "refs/heads/dev"
  tip := Except.ok ⟨"aaa111", "initial commit"⟩
  branches := [⟨"refs/heads/dev", false, some ⟨"refs/remotes/origin/dev"⟩⟩]
  remotes := []
  fetchResult := fun _ => Except.ok ()
  calcDivergence := fun _ => Except.error "tracked branch deleted upstream"
  pullResult := Except.error "nothing to pull"

/-- A repository handle wrapping `wRepoCmpFail`. -/
def wRiCmpFail : PyRevitRepoInfo :=
  ⟨"/repo/main", "refs/heads/dev", "aaa111", wRepoCmpFail⟩

/-- C7, witness: the comparison failure is logged and the check falls
through to the remaining (empty) branch list, returning its result. -/
theorem C7_compare_failure_skipped_witness :
    (has_pending_updates wRiCmpFail).1 =
      (branch_loop wRiCmpFail.repo.calcDivergence
        wRiCmpFail.repo.workingDirectory []).1 :=
  (C7_compare_failure_skipped wRiCmpFail
    ⟨"refs/heads/dev", false, some ⟨"refs/remotes/origin/dev"⟩⟩
    ⟨"refs/remotes/origin/dev"⟩ [] "tracked branch deleted upstream"
    rfl rfl rfl rfl).1
